import Mathlib

/-!
Verification development for the zap-quiz-server session coordinator.

Shallow embedding of `src/gateways/game.gateway.ts` (the `GameGateway`
class) and `src/services/game.service.ts` (the `GameService` class,
whose source appears alongside the Drizzle schema in
`src/db/schema/index.ts`).

Modelling conventions:
- JavaScript `Map` objects (`connectedClients`, `countdownTimers`) and the
  socket.io adapter's room table (`rooms`, a map from room name to a `Set`
  of socket ids) are modelled as association lists with set/replace and
  delete operations; `Set` membership lists are kept duplicate-free by the
  insert operation, and deletion removes every occurrence (set semantics).
- `Date.now()` timestamps are `Nat` parameters threaded explicitly.
- `setInterval` handles are `Nat`s drawn from a fresh-handle counter
  `nextHandle`; the set of not-yet-cleared interval handles is tracked in
  `liveIntervals` so that "no leaked tick source" is expressible.
  The `endTime` value captured by the tick closure in `startCountdown` is
  stored next to the handle in the `countdownTimers` table.
- Each `await`ed `GameService` call inside a gateway handler is an input
  (an oracle value) of the handler: `Except Unit α` when the gateway wraps
  the call in `try/catch` (a `.error ()` outcome models a rejected
  promise), with `α` the service's declared result type.
- Outbound socket traffic is an effect trace: `server.to(room).emit`
  becomes `.roomEmit`, `client.emit` becomes `.reply`, and
  `socket.disconnect()` becomes `.closeSocket`.
-/

/-- Status enum of the `games` table (`src/db/schema/index.ts`). -/
inductive GameStatus where
  | waiting
  | in_progress
  | completed
  | cancelled
deriving DecidableEq, Repr

/-- Rendering of a status value into the text used in error messages
(string interpolation of `game.status` in the source). -/
def statusText : GameStatus → String
  | .waiting => "waiting"
  | .in_progress => "in_progress"
  | .completed => "completed"
  | .cancelled => "cancelled"

/-- A row of the `games` table, restricted to the columns the embedded
operations read (`id`, `code`, `title`, `status`, `hostId`). -/
structure GameRow where
  id : String
  code : String
  title : Option String
  status : GameStatus
  hostId : String
deriving DecidableEq, Repr

/-- A row of the `players` table / the `Player` interface of
`game.service.ts` (the service maps rows to `Player` values field by
field, so one type serves for both). -/
structure PlayerRow where
  id : String
  gameId : String
  name : String
  userId : String
  isHost : Bool
  joinedAt : Nat
  leftAt : Option Nat
  isActive : Bool
deriving DecidableEq, Repr

/-- The `Game` interface returned by `GameService.findGameByCode`. -/
structure Game where
  id : String
  code : String
  title : String
  status : GameStatus
  hostId : String
deriving DecidableEq, Repr

/-- The database state visible to the embedded `GameService` operations. -/
structure Db where
  games : List GameRow
  players : List PlayerRow
deriving DecidableEq, Repr

/-- Result of `GameService.addPlayerToGame` (TS `JoinGameResult`): the
service returns either `success: true` with a player or `success: false`
with an error string, never other shapes. -/
inductive JoinGameResult where
  | ok (player : PlayerRow)
  | err (error : String)
deriving DecidableEq, Repr

/-- Whether a `JoinGameResult` has `success = true`. -/
def JoinGameResult.success : JoinGameResult → Bool
  | .ok _ => true
  | .err _ => false

/-- Result record of `GameService.savePlayerAnswer`. -/
structure SaveAnswerResult where
  success : Bool
  isCorrect : Bool
  points : Nat
deriving DecidableEq, Repr

/-- `GameService.addPlayerToGame(gameId, playerName, userId)` over a `Db`
state. `newId` models the `defaultRandom()` primary key of an inserted
row and `now` the `defaultNow()` timestamp. Mirrors the source: look up
the game, reject when absent or not `waiting`, return the existing active
`(gameId, userId)` row when present, otherwise insert a fresh row with
`isHost := false`, `isActive := true`. -/
def addPlayerToGame (db : Db) (gameId playerName userId : String)
    (newId : String) (now : Nat) : JoinGameResult × Db :=
  match db.games.find? (fun g => g.id == gameId) with
  | none => (.err "Game not found", db)
  | some game =>
    if game.status ≠ .waiting then
      (.err ("Cannot join game. Game status is: " ++ statusText game.status), db)
    else
      match db.players.find?
          (fun p => p.gameId == gameId && p.userId == userId && p.isActive) with
      | some existing => (.ok existing, db)
      | none =>
        let player : PlayerRow :=
          { id := newId, gameId := gameId, name := playerName, userId := userId,
            isHost := false, joinedAt := now, leftAt := none, isActive := true }
        (.ok player, { db with players := db.players ++ [player] })

/-- `GameService.removePlayerFromGame(gameId, playerId)`: an unconditional
UPDATE setting `isActive := false, leftAt := now` on every row matching
`(playerId, gameId)`; returns `true` whether or not any row matched.
`fault := true` models the database call throwing, which the service
catches, returning `false` with no update applied. -/
def removePlayerFromGame (db : Db) (gameId playerId : String) (now : Nat)
    (fault : Bool) : Bool × Db :=
  if fault then (false, db)
  else
    (true,
      { db with
        players := db.players.map (fun p =>
          if p.id == playerId && p.gameId == gameId then
            { p with isActive := false, leftAt := some now }
          else p) })

/-- `GameService.getGamePlayers(gameId)`: the active rows of the game. -/
def getGamePlayers (db : Db) (gameId : String) : List PlayerRow :=
  db.players.filter (fun p => p.gameId == gameId && p.isActive)

/-- Association-list lookup (JS `Map.get`; keys are unique in a `Map`). -/
def alookup {α : Type} : List (String × α) → String → Option α
  | [], _ => none
  | (k, v) :: rest, key => if k == key then some v else alookup rest key

/-- Association-list delete (JS `Map.delete`): remove every entry with the
key (a `Map` holds at most one). -/
def aerase {α : Type} : List (String × α) → String → List (String × α)
  | [], _ => []
  | (k, v) :: rest, key =>
    if k == key then aerase rest key else (k, v) :: aerase rest key

/-- Association-list set (JS `Map.set`): replace any existing entry. -/
def aset {α : Type} (l : List (String × α)) (key : String) (v : α) :
    List (String × α) :=
  (key, v) :: aerase l key

/-- The per-connection record stored in `connectedClients`
(`{ socket; gameId?; playerId?; lastPing? }`; the socket handle itself is
identified by the connection id). -/
structure ClientData where
  gameId : Option String
  playerId : Option String
  lastPing : Option Nat
deriving DecidableEq, Repr

/-- Outbound events of the gateway, one constructor per `emit`ted event
name, carrying the payload fields the source sends. -/
inductive EventMsg where
  | PLAYER_LEFT (playerId gameId : String)
  | PLAYER_LEFT_LOBBY (playerId gameId : String) (players : List PlayerRow)
  | LEAVE_GAME_SUCCESS (gameId : String)
  | LOBBY_LEFT (gameId : String)
  | PLAYER_JOINED_LOBBY (player : PlayerRow) (gameId : String)
      (players : List PlayerRow)
  | LOBBY_JOINED (player : PlayerRow) (gameId : String)
      (players : List PlayerRow)
  | LOBBY_PLAYERS (gameId : String) (players : List PlayerRow)
  | GAME_STARTED (gameId : String) (startedAt : Nat)
  | PLAYER_ANSWERED (playerId questionId : String) (timeToAnswer : Nat)
      (isCorrect : Bool) (points : Nat)
  | COUNTDOWN_START (gameId : String) (duration startTime endTime : Nat)
  | COUNTDOWN_TICK (gameId : String) (currentNumber remainingTime : Nat)
  | COUNTDOWN_END (gameId : String)
  | ERROR (message : String)
  | LOBBY_ERROR (message : String)
  | PONG
deriving DecidableEq, Repr

/-- One observable side effect of a handler invocation. -/
inductive OutEffect where
  | roomEmit (room : String) (event : EventMsg)
  | reply (clientId : String) (event : EventMsg)
  | closeSocket (clientId : String)
deriving DecidableEq, Repr

/-- In-memory state of the `GameGateway` instance plus the socket.io
adapter's room table. -/
structure GatewayState where
  connectedClients : List (String × ClientData)
  rooms : List (String × List String)
  countdownTimers : List (String × (Nat × Nat))
  liveIntervals : List Nat
  nextHandle : Nat
deriving DecidableEq, Repr

/-- `getRoomName` of the gateway. -/
def getRoomName (gameId : String) : String := "game-" ++ gameId

/-- socket.io `client.join(room)`: add the socket to the room's set
(create the set when the room does not exist; a `Set` never holds
duplicates, so adding a present member changes nothing). -/
def roomJoin (st : GatewayState) (clientId room : String) : GatewayState :=
  match alookup st.rooms room with
  | none => { st with rooms := aset st.rooms room [clientId] }
  | some ms =>
    if ms.contains clientId then st
    else { st with rooms := aset st.rooms room (ms ++ [clientId]) }

/-- socket.io `client.leave(room)`: `Set.delete` of the socket id from
that room's member set. -/
def roomLeave (st : GatewayState) (clientId room : String) : GatewayState :=
  { st with
    rooms := st.rooms.map (fun r =>
      if r.1 = room then (r.1, r.2.filter (fun m => !(m == clientId)))
      else r) }

/-- Room teardown performed by socket.io itself when a socket disconnects:
the socket is removed from every room before the gateway's disconnect
handler observes the adapter state. -/
def leaveAllRooms (st : GatewayState) (clientId : String) : GatewayState :=
  { st with
    rooms := st.rooms.map (fun r =>
      (r.1, r.2.filter (fun m => !(m == clientId)))) }

/-- Member set of a game's room, as `getConnectedPlayers` reads it
(`room ? Array.from(room) : []`; the adapter-availability guard of the
source is the non-degenerate branch here). -/
def getConnectedPlayers (st : GatewayState) (gameId : String) : List String :=
  match alookup st.rooms (getRoomName gameId) with
  | some ms => ms
  | none => []

/-- `clearCountdown(gameId)`: when a timer handle is stored for the game,
`clearInterval` it (the handle stops being live) and delete the table
entry; otherwise do nothing. -/
def clearCountdown (st : GatewayState) (gameId : String) : GatewayState :=
  match alookup st.countdownTimers gameId with
  | none => st
  | some t =>
    { st with
      countdownTimers := aerase st.countdownTimers gameId,
      liveIntervals := st.liveIntervals.filter (fun h => !(h == t.1)) }

/-- `startCountdown(gameId, duration)`: compute `endTime`, emit
`COUNTDOWN_START`, install a fresh interval handle in the timer table
(the tick closure captures `endTime`, kept beside the handle). -/
def startCountdown (st : GatewayState) (gameId : String) (duration now : Nat) :
    GatewayState × List OutEffect :=
  let startTime := now
  let endTime := startTime + duration * 1000
  let h := st.nextHandle
  ({ st with
      countdownTimers := aset st.countdownTimers gameId (h, endTime),
      liveIntervals := h :: st.liveIntervals,
      nextHandle := h + 1 },
    [.roomEmit (getRoomName gameId) (.COUNTDOWN_START gameId duration startTime endTime)])

/-- One firing of the interval callback installed by `startCountdown` for
`gameId` at wall-clock `now`. `remainingTime := endTime - now` in `Nat`
(truncated) subtraction equals the source's `Math.max(0, endTime - now)`;
`currentNumber := (remainingTime + 999) / 1000` in `Nat` division equals
`Math.ceil(remainingTime / 1000)`; `remainingTime <= 0` is
`remainingTime = 0`. When the countdown is over the callback emits
`COUNTDOWN_END` and clears itself via `clearCountdown`. -/
def countdownTick (st : GatewayState) (gameId : String) (now : Nat) :
    GatewayState × List OutEffect :=
  match alookup st.countdownTimers gameId with
  | none => (st, [])
  | some t =>
    let endTime := t.2
    let remainingTime := endTime - now
    let currentNumber := (remainingTime + 999) / 1000
    if remainingTime = 0 then
      (clearCountdown st gameId,
        [.roomEmit (getRoomName gameId) (.COUNTDOWN_END gameId)])
    else
      (st,
        [.roomEmit (getRoomName gameId)
          (.COUNTDOWN_TICK gameId currentNumber remainingTime)])

/-- `handleStartCountdown`: clear any existing countdown for the game,
then start the new one (lines 371-388 of the gateway). -/
def handleStartCountdown (st : GatewayState) (gameId : String)
    (duration now : Nat) : GatewayState × List OutEffect :=
  startCountdown (clearCountdown st gameId) gameId duration now

/-- `handleStopCountdown`: clear the countdown; nothing is emitted. -/
def handleStopCountdown (st : GatewayState) (gameId : String) :
    GatewayState × List OutEffect :=
  (clearCountdown st gameId, [])

/-- `if (clientData) { clientData.gameId = ...; clientData.playerId = ... }`
after a successful join. -/
def setBinding (st : GatewayState) (clientId gameId playerId : String) :
    GatewayState :=
  match alookup st.connectedClients clientId with
  | none => st
  | some cd =>
    { st with
      connectedClients :=
        aset st.connectedClients clientId
          { cd with gameId := some gameId, playerId := some playerId } }

/-- `clientData.gameId = undefined; clientData.playerId = undefined`
after a leave. -/
def clearBinding (st : GatewayState) (clientId : String) : GatewayState :=
  match alookup st.connectedClients clientId with
  | none => st
  | some cd =>
    { st with
      connectedClients :=
        aset st.connectedClients clientId
          { cd with gameId := none, playerId := none } }

/-- `handleConnection`: create a bare registry entry. -/
def handleConnection (st : GatewayState) (clientId : String) (now : Nat) :
    GatewayState :=
  { st with
    connectedClients :=
      aset st.connectedClients clientId
        { gameId := none, playerId := none, lastPing := some now } }

/-- The countdown-cleanup step of `handleDisconnect`: clear the game's
countdown when at most one member remains in its room
(`if (connectedPlayers.length <= 1) this.clearCountdown(...)`). -/
def disconnectCountdownCheck (st : GatewayState) (g : String) : GatewayState :=
  if (getConnectedPlayers st g).length ≤ 1 then clearCountdown st g else st

/-- `handleDisconnect` (lines 97-116): when the entry is bound to a game,
emit `PLAYER_LEFT` to the game's room and clear the countdown when at
most one member remains in the room; always delete the registry entry. -/
def handleDisconnect (st : GatewayState) (clientId : String) :
    GatewayState × List OutEffect :=
  match alookup st.connectedClients clientId with
  | some cd =>
    match cd.gameId, cd.playerId with
    | some g, some p =>
      let st1 := disconnectCountdownCheck st g
      ({ st1 with connectedClients := aerase st1.connectedClients clientId },
        [.roomEmit (getRoomName g) (.PLAYER_LEFT p g)])
    | _, _ =>
      ({ st with connectedClients := aerase st.connectedClients clientId }, [])
  | none =>
    ({ st with connectedClients := aerase st.connectedClients clientId }, [])

/-- A transport-level disconnect of a socket: socket.io removes the
socket from its rooms (between its `disconnecting` and `disconnect`
events), then the gateway's `handleDisconnect` runs. -/
def handleDisconnectFull (st : GatewayState) (clientId : String) :
    GatewayState × List OutEffect :=
  handleDisconnect (leaveAllRooms st clientId) clientId

/-- Payload of `LEAVE_GAME` / `LEAVE_LOBBY`. -/
structure LeaveGameData where
  gameId : String
  playerId : String
deriving DecidableEq, Repr

/-- Payload of `JOIN_LOBBY`. -/
structure JoinLobbyData where
  gameCode : String
  playerName : String
  userId : Option String
deriving DecidableEq, Repr

/-- Payload of `START_GAME`. -/
structure StartGameData where
  gameId : String
  hostId : String
deriving DecidableEq, Repr

/-- Payload of `ANSWER_QUESTION`. -/
structure AnswerQuestionData where
  gameId : String
  playerId : String
  questionId : String
  optionId : String
  timeToAnswer : Nat
deriving DecidableEq, Repr

/-- `handleLeaveGame` (lines 118-158). `removeRes` is the outcome of the
`removePlayerFromGame` call (`.error ()` models a rejected promise
reaching the handler's `catch`). On `false`, error reply only; on `true`,
leave the room, clear the binding, broadcast `PLAYER_LEFT` (carrying only
`playerId` and `gameId`), reply `LEAVE_GAME_SUCCESS`. -/
def handleLeaveGame (st : GatewayState) (clientId : String)
    (data : LeaveGameData) (removeRes : Except Unit Bool) :
    GatewayState × List OutEffect :=
  match removeRes with
  | .error _ => (st, [.reply clientId (.ERROR "Failed to leave game")])
  | .ok false => (st, [.reply clientId (.ERROR "Failed to leave game")])
  | .ok true =>
    let st1 := roomLeave st clientId (getRoomName data.gameId)
    let st2 := clearBinding st1 clientId
    (st2,
      [.roomEmit (getRoomName data.gameId) (.PLAYER_LEFT data.playerId data.gameId),
       .reply clientId (.LEAVE_GAME_SUCCESS data.gameId)])

/-- `handleLeaveLobby` (lines 305-351): like `handleLeaveGame` but the
broadcast is `PLAYER_LEFT_LOBBY` carrying the refreshed roster fetched by
`getGamePlayers` (`playersRes`), and replies use the lobby event names. -/
def handleLeaveLobby (st : GatewayState) (clientId : String)
    (data : LeaveGameData) (removeRes : Except Unit Bool)
    (playersRes : Except Unit (List PlayerRow)) :
    GatewayState × List OutEffect :=
  match removeRes with
  | .error _ => (st, [.reply clientId (.LOBBY_ERROR "Failed to leave lobby")])
  | .ok false => (st, [.reply clientId (.LOBBY_ERROR "Failed to leave lobby")])
  | .ok true =>
    let st1 := roomLeave st clientId (getRoomName data.gameId)
    let st2 := clearBinding st1 clientId
    match playersRes with
    | .error _ => (st2, [.reply clientId (.LOBBY_ERROR "Failed to leave lobby")])
    | .ok ps =>
      (st2,
        [.roomEmit (getRoomName data.gameId)
            (.PLAYER_LEFT_LOBBY data.playerId data.gameId ps),
         .reply clientId (.LOBBY_LEFT data.gameId)])

/-- `handleJoinLobby` (lines 236-303). Oracles: `findRes` for
`findGameByCode`, `addRes` for `addPlayerToGame`, `playersRes` for
`getGamePlayers`. Validation failures and store failures produce a
`LOBBY_ERROR` reply and nothing else; on success the connection joins the
room, is bound to `(game.id, player.id)`, and `PLAYER_JOINED_LOBBY` /
`LOBBY_JOINED` are emitted with the refreshed roster. -/
def handleJoinLobby (st : GatewayState) (clientId : String)
    (data : JoinLobbyData) (findRes : Except Unit (Option Game))
    (addRes : Except Unit JoinGameResult)
    (playersRes : Except Unit (List PlayerRow)) :
    GatewayState × List OutEffect :=
  match findRes with
  | .error _ => (st, [.reply clientId (.LOBBY_ERROR "Failed to join lobby")])
  | .ok none => (st, [.reply clientId (.LOBBY_ERROR "Game not found")])
  | .ok (some game) =>
    if game.status ≠ .waiting then
      (st,
        [.reply clientId
          (.LOBBY_ERROR ("Cannot join lobby. Game status is: " ++ statusText game.status))])
    else
      match addRes with
      | .error _ => (st, [.reply clientId (.LOBBY_ERROR "Failed to join lobby")])
      | .ok (.err e) => (st, [.reply clientId (.LOBBY_ERROR e)])
      | .ok (.ok player) =>
        let st1 := roomJoin st clientId (getRoomName game.id)
        let st2 := setBinding st1 clientId game.id player.id
        match playersRes with
        | .error _ =>
          (st2, [.reply clientId (.LOBBY_ERROR "Failed to join lobby")])
        | .ok ps =>
          (st2,
            [.roomEmit (getRoomName game.id) (.PLAYER_JOINED_LOBBY player game.id ps),
             .reply clientId (.LOBBY_JOINED player game.id ps)])

/-- `handleStartGame` (lines 160-197). `isHostRes` / `startRes` are the
outcomes of `isUserHost` / `startGame`; `now` stamps `GAME_STARTED`.
No local gateway state is touched by this handler. -/
def handleStartGame (st : GatewayState) (clientId : String)
    (data : StartGameData) (isHostRes startRes : Except Unit Bool)
    (now : Nat) : GatewayState × List OutEffect :=
  match isHostRes with
  | .error _ => (st, [.reply clientId (.ERROR "Failed to start game")])
  | .ok false => (st, [.reply clientId (.ERROR "Only the host can start the game")])
  | .ok true =>
    match startRes with
    | .error _ => (st, [.reply clientId (.ERROR "Failed to start game")])
    | .ok false => (st, [.reply clientId (.ERROR "Failed to start game")])
    | .ok true =>
      (st, [.roomEmit (getRoomName data.gameId) (.GAME_STARTED data.gameId now)])

/-- `handleAnswerQuestion` (lines 199-234). `saveRes` is the outcome of
`savePlayerAnswer`; on success the result is relayed in
`PLAYER_ANSWERED`. -/
def handleAnswerQuestion (st : GatewayState) (clientId : String)
    (data : AnswerQuestionData) (saveRes : Except Unit SaveAnswerResult) :
    GatewayState × List OutEffect :=
  match saveRes with
  | .error _ => (st, [.reply clientId (.ERROR "Failed to process answer")])
  | .ok r =>
    if r.success then
      (st,
        [.roomEmit (getRoomName data.gameId)
          (.PLAYER_ANSWERED data.playerId data.questionId data.timeToAnswer
            r.isCorrect r.points)])
    else (st, [.reply clientId (.ERROR "Failed to save answer")])

/-- `cleanupStaleClient` (lines 517-547): for a registered stale client
bound to a game, call `removePlayerFromGame` and broadcast
`PLAYER_LEFT_LOBBY` with the refreshed roster, any throw being caught and
only logged; then — bound or not, store failure or not — force a
transport disconnect (which runs `handleDisconnect` via socket.io) and
delete the registry entry. -/
def cleanupStaleClient (st : GatewayState) (clientId : String)
    (removeRes : Except Unit Bool)
    (playersRes : Except Unit (List PlayerRow)) :
    GatewayState × List OutEffect :=
  match alookup st.connectedClients clientId with
  | none => (st, [])
  | some cd =>
    let effs1 : List OutEffect :=
      match cd.gameId, cd.playerId with
      | some g, some p =>
        match removeRes with
        | .error _ => []
        | .ok _ =>
          match playersRes with
          | .error _ => []
          | .ok ps => [.roomEmit (getRoomName g) (.PLAYER_LEFT_LOBBY p g ps)]
      | _, _ => []
    let r2 := handleDisconnectFull st clientId
    ({ r2.1 with connectedClients := aerase r2.1.connectedClients clientId },
      effs1 ++ (.closeSocket clientId :: r2.2))

/-- `handlePing`: refresh `lastPing` when the entry exists, reply `PONG`. -/
def handlePing (st : GatewayState) (clientId : String) (now : Nat) :
    GatewayState × List OutEffect :=
  match alookup st.connectedClients clientId with
  | none => (st, [.reply clientId .PONG])
  | some cd =>
    ({ st with
        connectedClients :=
          aset st.connectedClients clientId { cd with lastPing := some now } },
      [.reply clientId .PONG])

/-- Whether an outbound event carries a roster (an updated player list)
in its payload. -/
def carriesRoster : EventMsg → Bool
  | .PLAYER_LEFT_LOBBY _ _ _ => true
  | .PLAYER_JOINED_LOBBY _ _ _ => true
  | .LOBBY_JOINED _ _ _ => true
  | .LOBBY_PLAYERS _ _ => true
  | _ => false

/-- Whether an effect is a broadcast to a room. -/
def OutEffect.isRoomEmit : OutEffect → Bool
  | .roomEmit _ _ => true
  | _ => false

/-- The trace consists of exactly one reply, an error event, addressed to
the given connection: the shape of every store-failure outcome. -/
def errorReplyOnly (clientId : String) (effs : List OutEffect) : Prop :=
  (∃ m, effs = [.reply clientId (.ERROR m)]) ∨
  (∃ m, effs = [.reply clientId (.LOBBY_ERROR m)])

/-- Failure of the store steps of `handleJoinLobby`: the game lookup
throws, finds nothing, finds a non-`waiting` game, or the add-player call
throws or returns an unsuccessful result. -/
def joinStoreFailure (findRes : Except Unit (Option Game))
    (addRes : Except Unit JoinGameResult) : Prop :=
  findRes = .error () ∨ findRes = .ok none ∨
  (∃ g, findRes = .ok (some g) ∧ g.status ≠ .waiting) ∨
  addRes = .error () ∨ (∃ e, addRes = .ok (.err e))

/-- Members of a room, by room name. -/
def roomMembers (st : GatewayState) (room : String) : List String :=
  (alookup st.rooms room).getD []

/-- A concrete coordinator state: one connection `c1` bound to game `g1`
as player `p1`, alone in the game's room, with a countdown running for
`g1` (handle `0`, ends at `5000`). -/
def stBound : GatewayState :=
  { connectedClients :=
      [("c1", { gameId := some "g1", playerId := some "p1", lastPing := some 0 })],
    rooms := [("game-g1", ["c1"])],
    countdownTimers := [("g1", (0, 5000))],
    liveIntervals := [0],
    nextHandle := 1 }

/-- A concrete database: game `g1` in status `waiting` with one active
player `p1` for user `u1`. -/
def dbWaiting : Db :=
  { games := [{ id := "g1", code := "ABC123", title := none,
                status := .waiting, hostId := "h1" }],
    players := [{ id := "p1", gameId := "g1", name := "Alice", userId := "u1",
                  isHost := false, joinedAt := 0, leftAt := none,
                  isActive := true }] }

/-- The same database with the game already `in_progress`. -/
def dbInProgress : Db :=
  { games := [{ id := "g1", code := "ABC123", title := none,
                status := .in_progress, hostId := "h1" }],
    players := [{ id := "p1", gameId := "g1", name := "Alice", userId := "u1",
                  isHost := false, joinedAt := 0, leftAt := none,
                  isActive := true }] }

/-- A database with no player rows at all. -/
def dbNoPlayers : Db :=
  { games := [{ id := "g1", code := "ABC123", title := none,
                status := .waiting, hostId := "h1" }],
    players := [] }

/-! ### Helper lemmas on the map and room operations -/

theorem filter_idem {α : Type} (l : List α) (p : α → Bool) :
    (l.filter p).filter p = l.filter p := by
  simp [List.filter_filter]

theorem alookup_aerase_self {α : Type} (l : List (String × α)) (k : String) :
    alookup (aerase l k) k = none := by
  induction l with
  | nil => rfl
  | cons e rest ih =>
    obtain ⟨ek, ev⟩ := e
    by_cases he : ek = k
    · simpa [aerase, he] using ih
    · simpa [aerase, alookup, he] using ih

theorem alookup_aerase_ne {α : Type} (l : List (String × α)) (k k' : String)
    (h : k' ≠ k) : alookup (aerase l k) k' = alookup l k' := by
  induction l with
  | nil => rfl
  | cons e rest ih =>
    obtain ⟨ek, ev⟩ := e
    by_cases he : ek = k
    · subst he
      simp [aerase, alookup, Ne.symm h, ih]
    · by_cases he' : ek = k'
      · subst he'
        simp [aerase, alookup, he]
      · simp [aerase, alookup, he, he', ih]

theorem alookup_aset_self {α : Type} (l : List (String × α)) (k : String)
    (v : α) : alookup (aset l k v) k = some v := by
  simp [aset, alookup]

theorem alookup_aset_ne {α : Type} (l : List (String × α)) (k k' : String)
    (v : α) (h : k' ≠ k) : alookup (aset l k v) k' = alookup l k' := by
  simp [aset, alookup, Ne.symm h, alookup_aerase_ne l k k' h]

theorem aerase_idem {α : Type} (l : List (String × α)) (k : String) :
    aerase (aerase l k) k = aerase l k := by
  induction l with
  | nil => rfl
  | cons e rest ih =>
    obtain ⟨ek, ev⟩ := e
    by_cases he : ek = k
    · simp [aerase, he, ih]
    · simp [aerase, he, ih]

theorem aerase_of_alookup_none {α : Type} (l : List (String × α)) (k : String)
    (h : alookup l k = none) : aerase l k = l := by
  induction l with
  | nil => rfl
  | cons e rest ih =>
    obtain ⟨ek, ev⟩ := e
    by_cases he : ek = k
    · simp [alookup, he] at h
    · simp [alookup, he] at h
      simp [aerase, he, ih h]

theorem alookup_map_values {α β : Type} (l : List (String × α)) (r : String)
    (f : α → β) :
    alookup (l.map (fun e => (e.1, f e.2))) r = (alookup l r).map f := by
  induction l with
  | nil => rfl
  | cons e rest ih =>
    obtain ⟨ek, ev⟩ := e
    by_cases he : ek = r
    · subst he
      simp [alookup]
    · simp [alookup, he, ih]

theorem alookup_map_keyed {α : Type} (l : List (String × α)) (r : String)
    (f : α → α) :
    alookup (l.map (fun e => if e.1 = r then (e.1, f e.2) else e)) r =
      (alookup l r).map f := by
  induction l with
  | nil => rfl
  | cons e rest ih =>
    obtain ⟨ek, ev⟩ := e
    show alookup ((if ek = r then (ek, f ev) else (ek, ev)) :: _) r = _
    by_cases he : ek = r
    · subst he
      rw [if_pos rfl]
      simp [alookup]
    · rw [if_neg he]
      simp [alookup, he, ih]

theorem clearCountdown_clients (st : GatewayState) (g : String) :
    (clearCountdown st g).connectedClients = st.connectedClients := by
  unfold clearCountdown
  cases alookup st.countdownTimers g <;> rfl

theorem clearCountdown_rooms (st : GatewayState) (g : String) :
    (clearCountdown st g).rooms = st.rooms := by
  unfold clearCountdown
  cases alookup st.countdownTimers g <;> rfl

theorem clearCountdown_timer_none (st : GatewayState) (g : String) :
    alookup (clearCountdown st g).countdownTimers g = none := by
  unfold clearCountdown
  cases h : alookup st.countdownTimers g with
  | none => simpa using h
  | some t => simp [alookup_aerase_self]

theorem clearCountdown_of_none (st : GatewayState) (g : String)
    (h : alookup st.countdownTimers g = none) : clearCountdown st g = st := by
  simp [clearCountdown, h]

theorem clearCountdown_handle_dead (st : GatewayState) (g : String)
    (handle : Nat) (e : Nat)
    (ht : alookup st.countdownTimers g = some (handle, e)) :
    handle ∉ (clearCountdown st g).liveIntervals := by
  simp [clearCountdown, ht]

theorem clearCountdown_timer_ne (st : GatewayState) (g g' : String)
    (h : g' ≠ g) :
    alookup (clearCountdown st g).countdownTimers g' =
      alookup st.countdownTimers g' := by
  unfold clearCountdown
  cases ht : alookup st.countdownTimers g with
  | none => rfl
  | some t => simp [alookup_aerase_ne _ _ _ h]

theorem roomMembers_leaveAllRooms (st : GatewayState) (cid r : String) :
    roomMembers (leaveAllRooms st cid) r =
      (roomMembers st r).filter (fun m => !(m == cid)) := by
  unfold roomMembers leaveAllRooms
  rw [alookup_map_values]
  cases alookup st.rooms r <;> rfl

theorem roomMembers_roomLeave_self (st : GatewayState) (cid r : String) :
    roomMembers (roomLeave st cid r) r =
      (roomMembers st r).filter (fun m => !(m == cid)) := by
  unfold roomMembers roomLeave
  rw [alookup_map_keyed]
  cases alookup st.rooms r <;> rfl

theorem not_mem_filter_ne {α : Type} [BEq α] [LawfulBEq α] (l : List α)
    (x : α) : x ∉ l.filter (fun m => !(m == x)) := by
  intro h
  simp at h

theorem filter_aerase_nil {α : Type} (l : List (String × α)) (k : String) :
    (aerase l k).filter (fun e => e.1 == k) = [] := by
  induction l with
  | nil => rfl
  | cons e rest ih =>
    obtain ⟨ek, ev⟩ := e
    by_cases he : ek = k
    · simp [aerase, he, ih]
    · simp [aerase, he, ih]

theorem clearCountdown_nextHandle (st : GatewayState) (g : String) :
    (clearCountdown st g).nextHandle = st.nextHandle := by
  unfold clearCountdown
  cases alookup st.countdownTimers g <;> rfl

theorem clearCountdown_some_live (st : GatewayState) (g : String)
    (handle e : Nat)
    (ht : alookup st.countdownTimers g = some (handle, e)) :
    (clearCountdown st g).liveIntervals =
      st.liveIntervals.filter (fun x => !(x == handle)) := by
  simp [clearCountdown, ht]

theorem clearCountdown_some_timers (st : GatewayState) (g : String)
    (handle e : Nat)
    (ht : alookup st.countdownTimers g = some (handle, e)) :
    (clearCountdown st g).countdownTimers = aerase st.countdownTimers g := by
  simp [clearCountdown, ht]

theorem handleStartCountdown_timers (st : GatewayState) (g : String)
    (d n : Nat) :
    (handleStartCountdown st g d n).1.countdownTimers =
      aset (clearCountdown st g).countdownTimers g
        (st.nextHandle, n + d * 1000) := by
  simp [handleStartCountdown, startCountdown, clearCountdown_nextHandle]

theorem handleStartCountdown_live (st : GatewayState) (g : String)
    (d n : Nat) :
    (handleStartCountdown st g d n).1.liveIntervals =
      st.nextHandle :: (clearCountdown st g).liveIntervals := by
  simp [handleStartCountdown, startCountdown, clearCountdown_nextHandle]

theorem handleStartCountdown_next (st : GatewayState) (g : String)
    (d n : Nat) :
    (handleStartCountdown st g d n).1.nextHandle = st.nextHandle + 1 := by
  simp [handleStartCountdown, startCountdown, clearCountdown_nextHandle]

theorem leaveAllRooms_clients (st : GatewayState) (cid : String) :
    (leaveAllRooms st cid).connectedClients = st.connectedClients := rfl

theorem leaveAllRooms_timers (st : GatewayState) (cid : String) :
    (leaveAllRooms st cid).countdownTimers = st.countdownTimers := rfl

theorem clearBinding_lookup (st : GatewayState) (cid : String) (cd : ClientData)
    (h : alookup (clearBinding st cid).connectedClients cid = some cd) :
    cd.gameId = none ∧ cd.playerId = none := by
  unfold clearBinding at h
  cases hc : alookup st.connectedClients cid with
  | none =>
    rw [hc] at h
    rw [hc] at h
    exact absurd h (by simp [hc])
  | some cd0 =>
    rw [hc] at h
    rw [alookup_aset_self] at h
    cases h
    exact ⟨rfl, rfl⟩

theorem clearBinding_rooms (st : GatewayState) (cid : String) :
    (clearBinding st cid).rooms = st.rooms := by
  unfold clearBinding
  cases alookup st.connectedClients cid <;> rfl

theorem clearBinding_timers (st : GatewayState) (cid : String) :
    (clearBinding st cid).countdownTimers = st.countdownTimers := by
  unfold clearBinding
  cases alookup st.connectedClients cid <;> rfl

theorem roomLeave_clients (st : GatewayState) (cid r : String) :
    (roomLeave st cid r).connectedClients = st.connectedClients := rfl

theorem roomLeave_timers (st : GatewayState) (cid r : String) :
    (roomLeave st cid r).countdownTimers = st.countdownTimers := rfl

theorem roomJoin_clients (st : GatewayState) (cid r : String) :
    (roomJoin st cid r).connectedClients = st.connectedClients := by
  unfold roomJoin
  cases alookup st.rooms r with
  | none => rfl
  | some ms =>
    by_cases h : cid ∈ ms
    · simp [h]
    · simp [h]

theorem roomJoin_timers (st : GatewayState) (cid r : String) :
    (roomJoin st cid r).countdownTimers = st.countdownTimers := by
  unfold roomJoin
  cases alookup st.rooms r with
  | none => rfl
  | some ms =>
    by_cases h : cid ∈ ms
    · simp [h]
    · simp [h]

theorem getConnectedPlayers_eq_roomMembers (st : GatewayState) (g : String) :
    getConnectedPlayers st g = roomMembers st (getRoomName g) := by
  unfold getConnectedPlayers roomMembers
  cases alookup st.rooms (getRoomName g) <;> rfl

theorem leaveAllRooms_of_filtered (st' st : GatewayState) (cid : String)
    (h : st'.rooms = (leaveAllRooms st cid).rooms) :
    leaveAllRooms st' cid = st' := by
  show ({ st' with rooms := _ } : GatewayState) = st'
  have hrw : st'.rooms.map
      (fun r => (r.1, r.2.filter (fun m => !(m == cid)))) = st'.rooms := by
    rw [h]
    show ((st.rooms.map _).map _ : List (String × List String)) = _
    rw [List.map_map]
    exact List.map_congr_left (fun r _ => by simp [Function.comp, filter_idem])
  rw [hrw]

/-! ### Claim theorems -/

/-- Claim C9: stopping a countdown is silent and total: `STOP_COUNTDOWN`
emits nothing and never produces an error reply, removes the game's timer
entry when one exists, leaves every other game's timer and all
registry/room state untouched, and is a no-op when no timer exists. -/
theorem stop_countdown_silent (st : GatewayState) (g : String) :
    (handleStopCountdown st g).2 = [] ∧
    alookup (handleStopCountdown st g).1.countdownTimers g = none ∧
    (handleStopCountdown st g).1.connectedClients = st.connectedClients ∧
    (handleStopCountdown st g).1.rooms = st.rooms ∧
    (∀ g', g' ≠ g →
      alookup (handleStopCountdown st g).1.countdownTimers g' =
        alookup st.countdownTimers g') ∧
    (alookup st.countdownTimers g = none → (handleStopCountdown st g).1 = st) := by
  refine ⟨rfl, ?_, ?_, ?_, ?_, ?_⟩
  · exact clearCountdown_timer_none st g
  · exact clearCountdown_clients st g
  · exact clearCountdown_rooms st g
  · exact fun g' h => clearCountdown_timer_ne st g g' h
  · exact fun h => clearCountdown_of_none st g h

/-- Witness for C9 at a concrete state: stopping `g1` (which has a timer)
does not disturb `g2`'s absent entry, and stopping `g2` (no timer) is a
no-op. -/
theorem stop_countdown_silent_witness :
    alookup (handleStopCountdown stBound "g1").1.countdownTimers "g2" =
      alookup stBound.countdownTimers "g2" ∧
    (handleStopCountdown stBound "g2").1 = stBound :=
  ⟨(stop_countdown_silent stBound "g1").2.2.2.2.1 "g2" (by decide),
   (stop_countdown_silent stBound "g2").2.2.2.2.2 (by decide)⟩

/-- Claim C2: at most one live countdown timer per game: after
`start(g, d1)` followed by `start(g, d2)`, the timer table holds exactly
one entry for `g`, carrying the second start's handle and deadline
`n2 + d2*1000`; the first start's interval handle has been cleared (it is
not among the live tick sources), so only the `d2` tick sequence can
fire. -/
theorem restart_countdown_single_timer (st : GatewayState) (g : String)
    (d1 d2 n1 n2 : Nat) :
    alookup ((handleStartCountdown
        (handleStartCountdown st g d1 n1).1 g d2 n2).1).countdownTimers g =
      some (st.nextHandle + 1, n2 + d2 * 1000) ∧
    st.nextHandle ∉
      ((handleStartCountdown
        (handleStartCountdown st g d1 n1).1 g d2 n2).1).liveIntervals ∧
    st.nextHandle + 1 ∈
      ((handleStartCountdown
        (handleStartCountdown st g d1 n1).1 g d2 n2).1).liveIntervals ∧
    (((handleStartCountdown
        (handleStartCountdown st g d1 n1).1 g d2 n2).1).countdownTimers.filter
      (fun e => e.1 == g)).length = 1 := by
  have ht1 : alookup (handleStartCountdown st g d1 n1).1.countdownTimers g =
      some (st.nextHandle, n1 + d1 * 1000) := by
    rw [handleStartCountdown_timers, alookup_aset_self]
  refine ⟨?_, ?_, ?_, ?_⟩
  · rw [handleStartCountdown_timers, handleStartCountdown_next,
      alookup_aset_self]
  · rw [handleStartCountdown_live,
      clearCountdown_some_live _ _ _ _ ht1,
      handleStartCountdown_next, handleStartCountdown_live]
    intro hmem
    rcases List.mem_cons.mp hmem with h | h
    · omega
    · exact absurd h (not_mem_filter_ne _ _)
  · rw [handleStartCountdown_live, handleStartCountdown_next]
    exact List.mem_cons_self _ _
  · rw [handleStartCountdown_timers,
      clearCountdown_some_timers _ _ _ _ ht1]
    show (((g, _) :: aerase (aerase _ g) g).filter (fun e => e.1 == g)).length = 1
    rw [List.filter_cons]
    simp [filter_aerase_nil]

/-- Claim C4: a countdown tick computes its payload from the wall clock:
`remainingTime = max 0 (endsAt - now)` (the `Nat`-truncated subtraction
coincides with the clamped integer difference) and
`currentNumber = ceil(remainingTime / 1000)` (characterized as the least
number of thousands covering `remainingTime`); when the remaining time
has reached zero the tick emits the terminal `COUNTDOWN_END` and removes
the game's timer entry, killing its tick source. -/
theorem countdown_tick_wall_clock (st : GatewayState) (g : String)
    (now handle endsAt : Nat)
    (ht : alookup st.countdownTimers g = some (handle, endsAt)) :
    (endsAt - now = (max ((endsAt : Int) - (now : Int)) 0).toNat) ∧
    (now < endsAt →
      (countdownTick st g now).2 =
        [.roomEmit (getRoomName g)
          (.COUNTDOWN_TICK g ((endsAt - now + 999) / 1000) (endsAt - now))] ∧
      (countdownTick st g now).1 = st ∧
      endsAt - now ≤ 1000 * ((endsAt - now + 999) / 1000) ∧
      1000 * ((endsAt - now + 999) / 1000) < (endsAt - now) + 1000) ∧
    (endsAt ≤ now →
      (countdownTick st g now).2 =
        [.roomEmit (getRoomName g) (.COUNTDOWN_END g)] ∧
      alookup (countdownTick st g now).1.countdownTimers g = none ∧
      handle ∉ (countdownTick st g now).1.liveIntervals) := by
  refine ⟨by omega, ?_, ?_⟩
  · intro hlt
    have hr : ¬(endsAt - now = 0) := by omega
    refine ⟨?_, ?_, by omega, by omega⟩
    · simp [countdownTick, ht, hr]
    · simp [countdownTick, ht, hr]
  · intro hle
    have hr : endsAt - now = 0 := by omega
    have hstep : countdownTick st g now =
        (clearCountdown st g,
          [.roomEmit (getRoomName g) (.COUNTDOWN_END g)]) := by
      simp [countdownTick, ht, hr]
    refine ⟨by rw [hstep], ?_, ?_⟩
    · rw [hstep]
      exact clearCountdown_timer_none st g
    · rw [hstep]
      exact clearCountdown_handle_dead st g handle endsAt ht

/-- Witness for C4 at the concrete state `stBound` (timer for `g1` with
deadline `5000`, handle `0`): a tick at `1500` emits a `COUNTDOWN_TICK`
with `3500` ms / `4` s remaining, and a tick at `6000` removes the timer
entry. -/
theorem countdown_tick_wall_clock_witness :
    (countdownTick stBound "g1" 1500).2 =
      [.roomEmit (getRoomName "g1") (.COUNTDOWN_TICK "g1" 4 3500)] ∧
    alookup (countdownTick stBound "g1" 6000).1.countdownTimers "g1" = none :=
  ⟨((countdown_tick_wall_clock stBound "g1" 1500 0 5000 (by decide)).2.1
      (by decide)).1,
   ((countdown_tick_wall_clock stBound "g1" 6000 0 5000 (by decide)).2.2
      (by decide)).2.1⟩

/-- Claim C1: in every inbound handler (join-lobby, leave, start, answer),
when the GameStore step fails or returns an unsuccessful result the
handler leaves the whole coordinator state unchanged (so the connection's
registry binding, every room membership and every timer are untouched)
and its entire effect trace is a single error reply to the originating
connection — in particular no `PLAYER_JOINED_LOBBY` (or any other
broadcast) is sent and the caller stays unbound. -/
theorem store_failure_no_local_mutation :
    (∀ (st : GatewayState) (cid : String) (data : JoinLobbyData)
        (findRes : Except Unit (Option Game))
        (addRes : Except Unit JoinGameResult)
        (playersRes : Except Unit (List PlayerRow)),
      joinStoreFailure findRes addRes →
        (handleJoinLobby st cid data findRes addRes playersRes).1 = st ∧
        errorReplyOnly cid
          (handleJoinLobby st cid data findRes addRes playersRes).2) ∧
    (∀ (st : GatewayState) (cid : String) (data : LeaveGameData)
        (removeRes : Except Unit Bool),
      (removeRes = .error () ∨ removeRes = .ok false) →
        handleLeaveGame st cid data removeRes =
          (st, [.reply cid (.ERROR "Failed to leave game")])) ∧
    (∀ (st : GatewayState) (cid : String) (data : StartGameData)
        (isHostRes startRes : Except Unit Bool) (now : Nat),
      (isHostRes = .error () ∨ isHostRes = .ok false ∨
        startRes = .error () ∨ startRes = .ok false) →
        (handleStartGame st cid data isHostRes startRes now).1 = st ∧
        errorReplyOnly cid
          (handleStartGame st cid data isHostRes startRes now).2) ∧
    (∀ (st : GatewayState) (cid : String) (data : AnswerQuestionData)
        (saveRes : Except Unit SaveAnswerResult),
      (saveRes = .error () ∨ ∃ r, saveRes = .ok r ∧ r.success = false) →
        (handleAnswerQuestion st cid data saveRes).1 = st ∧
        errorReplyOnly cid (handleAnswerQuestion st cid data saveRes).2) := by
  refine ⟨?_, ?_, ?_, ?_⟩
  · intro st cid data findRes addRes playersRes h
    rcases h with h | h | ⟨g, hf, hs⟩ | h | ⟨e, h⟩
    · subst h
      exact ⟨rfl, Or.inr ⟨_, rfl⟩⟩
    · subst h
      exact ⟨rfl, Or.inr ⟨_, rfl⟩⟩
    · subst hf
      rw [show handleJoinLobby st cid data (.ok (some g)) addRes playersRes =
          (st, [.reply cid (.LOBBY_ERROR
            ("Cannot join lobby. Game status is: " ++ statusText g.status))])
        from by simp [handleJoinLobby, hs]]
      exact ⟨rfl, Or.inr ⟨_, rfl⟩⟩
    · subst h
      cases findRes with
      | error u => exact ⟨rfl, Or.inr ⟨_, rfl⟩⟩
      | ok og =>
        cases og with
        | none => exact ⟨rfl, Or.inr ⟨_, rfl⟩⟩
        | some g =>
          by_cases hs : g.status = .waiting
          · rw [show handleJoinLobby st cid data (.ok (some g)) (.error ())
                playersRes = (st, [.reply cid (.LOBBY_ERROR "Failed to join lobby")])
              from by simp [handleJoinLobby, hs]]
            exact ⟨rfl, Or.inr ⟨_, rfl⟩⟩
          · rw [show handleJoinLobby st cid data (.ok (some g)) (.error ())
                playersRes = (st, [.reply cid (.LOBBY_ERROR
                  ("Cannot join lobby. Game status is: " ++ statusText g.status))])
              from by simp [handleJoinLobby, hs]]
            exact ⟨rfl, Or.inr ⟨_, rfl⟩⟩
    · subst h
      cases findRes with
      | error u => exact ⟨rfl, Or.inr ⟨_, rfl⟩⟩
      | ok og =>
        cases og with
        | none => exact ⟨rfl, Or.inr ⟨_, rfl⟩⟩
        | some g =>
          by_cases hs : g.status = .waiting
          · rw [show handleJoinLobby st cid data (.ok (some g)) (.ok (.err e))
                playersRes = (st, [.reply cid (.LOBBY_ERROR e)])
              from by simp [handleJoinLobby, hs]]
            exact ⟨rfl, Or.inr ⟨_, rfl⟩⟩
          · rw [show handleJoinLobby st cid data (.ok (some g)) (.ok (.err e))
                playersRes = (st, [.reply cid (.LOBBY_ERROR
                  ("Cannot join lobby. Game status is: " ++ statusText g.status))])
              from by simp [handleJoinLobby, hs]]
            exact ⟨rfl, Or.inr ⟨_, rfl⟩⟩
  · intro st cid data removeRes h
    rcases h with h | h <;> subst h <;> rfl
  · intro st cid data isHostRes startRes now h
    rcases h with h | h | h | h
    · subst h
      exact ⟨rfl, Or.inl ⟨_, rfl⟩⟩
    · subst h
      exact ⟨rfl, Or.inl ⟨_, rfl⟩⟩
    · subst h
      cases isHostRes with
      | error u => exact ⟨rfl, Or.inl ⟨_, rfl⟩⟩
      | ok b =>
        cases b
        · exact ⟨rfl, Or.inl ⟨_, rfl⟩⟩
        · exact ⟨rfl, Or.inl ⟨_, rfl⟩⟩
    · subst h
      cases isHostRes with
      | error u => exact ⟨rfl, Or.inl ⟨_, rfl⟩⟩
      | ok b =>
        cases b
        · exact ⟨rfl, Or.inl ⟨_, rfl⟩⟩
        · exact ⟨rfl, Or.inl ⟨_, rfl⟩⟩
  · intro st cid data saveRes h
    rcases h with h | ⟨r, h, hr⟩
    · subst h
      exact ⟨rfl, Or.inl ⟨_, rfl⟩⟩
    · subst h
      rw [show handleAnswerQuestion st cid data (.ok r) =
          (st, [.reply cid (.ERROR "Failed to save answer")])
        from by simp [handleAnswerQuestion, hr]]
      exact ⟨rfl, Or.inl ⟨_, rfl⟩⟩

/-- Witness for C1: concrete failing instances of all four handlers at
`stBound` — a not-found game on join, a `false` removal on leave, a
non-host on start, a rejected answer save — each leave the state intact
and reply with a single error. -/
theorem store_failure_no_local_mutation_witness :
    ((handleJoinLobby stBound "c1" ⟨"ABC123", "Alice", some "u1"⟩ (.ok none)
        (.error ()) (.ok [])).1 = stBound ∧
      errorReplyOnly "c1" (handleJoinLobby stBound "c1"
        ⟨"ABC123", "Alice", some "u1"⟩ (.ok none) (.error ()) (.ok [])).2) ∧
    handleLeaveGame stBound "c1" ⟨"g1", "p1"⟩ (.ok false) =
      (stBound, [.reply "c1" (.ERROR "Failed to leave game")]) ∧
    ((handleStartGame stBound "c1" ⟨"g1", "h1"⟩ (.ok false) (.ok true) 99).1 =
        stBound ∧
      errorReplyOnly "c1"
        (handleStartGame stBound "c1" ⟨"g1", "h1"⟩ (.ok false) (.ok true) 99).2) ∧
    ((handleAnswerQuestion stBound "c1" ⟨"g1", "p1", "q1", "o1", 5⟩
        (.ok ⟨false, false, 0⟩)).1 = stBound ∧
      errorReplyOnly "c1" (handleAnswerQuestion stBound "c1"
        ⟨"g1", "p1", "q1", "o1", 5⟩ (.ok ⟨false, false, 0⟩)).2) :=
  ⟨store_failure_no_local_mutation.1 stBound "c1" _ _ _ _ (Or.inr (Or.inl rfl)),
   store_failure_no_local_mutation.2.1 stBound "c1" _ _ (Or.inr rfl),
   store_failure_no_local_mutation.2.2.1 stBound "c1" _ _ _ 99
     (Or.inr (Or.inl rfl)),
   store_failure_no_local_mutation.2.2.2 stBound "c1" _ _
     (Or.inr ⟨⟨false, false, 0⟩, rfl, rfl⟩)⟩

theorem disconnectCountdownCheck_clients (st : GatewayState) (g : String) :
    (disconnectCountdownCheck st g).connectedClients = st.connectedClients := by
  unfold disconnectCountdownCheck
  split
  · exact clearCountdown_clients st g
  · rfl

theorem disconnectCountdownCheck_rooms (st : GatewayState) (g : String) :
    (disconnectCountdownCheck st g).rooms = st.rooms := by
  unfold disconnectCountdownCheck
  split
  · exact clearCountdown_rooms st g
  · rfl

theorem handleDisconnect_bound (st : GatewayState) (cid g p : String)
    (cd : ClientData) (hc : alookup st.connectedClients cid = some cd)
    (hg : cd.gameId = some g) (hp : cd.playerId = some p) :
    handleDisconnect st cid =
      ({ disconnectCountdownCheck st g with
          connectedClients :=
            aerase (disconnectCountdownCheck st g).connectedClients cid },
        [.roomEmit (getRoomName g) (.PLAYER_LEFT p g)]) := by
  obtain ⟨cdg, cdp, cdl⟩ := cd
  have hg' : cdg = some g := hg
  have hp' : cdp = some p := hp
  subst hg'
  subst hp'
  simp [handleDisconnect, hc]

theorem handleDisconnect_none (st : GatewayState) (cid : String)
    (hc : alookup st.connectedClients cid = none) :
    handleDisconnect st cid =
      ({ st with connectedClients := aerase st.connectedClients cid }, []) := by
  simp [handleDisconnect, hc]

/-- Claim C8: a connection bound to `(g, p)` that disconnects triggers
exactly one `PLAYER_LEFT` broadcast to `g`'s room (its entire effect
trace is that single broadcast) and its registry entry is removed; a
second disconnect of the same, already-removed connection id emits
nothing and leaves the state exactly as it was. -/
theorem disconnect_cleans_one_binding (st : GatewayState) (cid g p : String)
    (cd : ClientData)
    (hc : alookup st.connectedClients cid = some cd)
    (hg : cd.gameId = some g) (hp : cd.playerId = some p) :
    (handleDisconnectFull st cid).2 =
      [.roomEmit (getRoomName g) (.PLAYER_LEFT p g)] ∧
    alookup (handleDisconnectFull st cid).1.connectedClients cid = none ∧
    handleDisconnectFull (handleDisconnectFull st cid).1 cid =
      ((handleDisconnectFull st cid).1, []) := by
  have hcL : alookup (leaveAllRooms st cid).connectedClients cid = some cd := by
    rw [leaveAllRooms_clients]
    exact hc
  have hD : handleDisconnectFull st cid =
      ({ disconnectCountdownCheck (leaveAllRooms st cid) g with
          connectedClients :=
            aerase (disconnectCountdownCheck (leaveAllRooms st cid) g).connectedClients
              cid },
        [.roomEmit (getRoomName g) (.PLAYER_LEFT p g)]) := by
    unfold handleDisconnectFull
    exact handleDisconnect_bound (leaveAllRooms st cid) cid g p cd hcL hg hp
  have hclients : (handleDisconnectFull st cid).1.connectedClients =
      aerase (leaveAllRooms st cid).connectedClients cid := by
    rw [hD]
    show aerase (disconnectCountdownCheck (leaveAllRooms st cid) g).connectedClients
        cid = _
    rw [disconnectCountdownCheck_clients]
  have hrooms : (handleDisconnectFull st cid).1.rooms =
      (leaveAllRooms st cid).rooms := by
    rw [hD]
    show (disconnectCountdownCheck (leaveAllRooms st cid) g).rooms = _
    rw [disconnectCountdownCheck_rooms]
  refine ⟨by rw [hD], ?_, ?_⟩
  · rw [hclients]
    exact alookup_aerase_self _ _
  · have hL : leaveAllRooms (handleDisconnectFull st cid).1 cid =
        (handleDisconnectFull st cid).1 :=
      leaveAllRooms_of_filtered _ st cid hrooms
    have hnone : alookup (handleDisconnectFull st cid).1.connectedClients cid =
        none := by
      rw [hclients]
      exact alookup_aerase_self _ _
    show handleDisconnect
        (leaveAllRooms (handleDisconnectFull st cid).1 cid) cid =
      ((handleDisconnectFull st cid).1, [])
    rw [hL, handleDisconnect_none _ _ hnone]
    have : aerase (handleDisconnectFull st cid).1.connectedClients cid =
        (handleDisconnectFull st cid).1.connectedClients := by
      rw [hclients]
      exact aerase_idem _ _
    rw [this]

/-- Witness for C8 at `stBound`: disconnecting the bound connection `c1`
broadcasts exactly one `PLAYER_LEFT` and a second disconnect of `c1` is a
silent no-op. -/
theorem disconnect_cleans_one_binding_witness :
    (handleDisconnectFull stBound "c1").2 =
      [.roomEmit (getRoomName "g1") (.PLAYER_LEFT "p1" "g1")] ∧
    handleDisconnectFull (handleDisconnectFull stBound "c1").1 "c1" =
      ((handleDisconnectFull stBound "c1").1, []) :=
  ⟨(disconnect_cleans_one_binding stBound "c1" "g1" "p1"
      { gameId := some "g1", playerId := some "p1", lastPing := some 0 }
      (by decide) rfl rfl).1,
   (disconnect_cleans_one_binding stBound "c1" "g1" "p1"
      { gameId := some "g1", playerId := some "p1", lastPing := some 0 }
      (by decide) rfl rfl).2.2⟩

/-- Claim C5: when the heartbeat monitor evicts a stale connection bound
to game `g` and fewer than two members remain in `g`'s room after the
socket's removal from its rooms, the countdown timer for `g` is stopped
(its timer-table entry is gone after the eviction) — whatever the
outcomes of the store calls made during cleanup. -/
theorem stale_eviction_stops_countdown (st : GatewayState) (cid g p : String)
    (cd : ClientData) (removeRes : Except Unit Bool)
    (playersRes : Except Unit (List PlayerRow))
    (hc : alookup st.connectedClients cid = some cd)
    (hg : cd.gameId = some g) (hp : cd.playerId = some p)
    (hm : (roomMembers (leaveAllRooms st cid) (getRoomName g)).length ≤ 1) :
    alookup (cleanupStaleClient st cid removeRes
      playersRes).1.countdownTimers g = none := by
  have htimers :
      (cleanupStaleClient st cid removeRes playersRes).1.countdownTimers =
        (handleDisconnectFull st cid).1.countdownTimers := by
    simp [cleanupStaleClient, hc]
  rw [htimers]
  have hcL : alookup (leaveAllRooms st cid).connectedClients cid = some cd := by
    rw [leaveAllRooms_clients]
    exact hc
  have hD := handleDisconnect_bound (leaveAllRooms st cid) cid g p cd hcL hg hp
  have hcond : (getConnectedPlayers (leaveAllRooms st cid) g).length ≤ 1 := by
    rw [getConnectedPlayers_eq_roomMembers]
    exact hm
  have hcheck : disconnectCountdownCheck (leaveAllRooms st cid) g =
      clearCountdown (leaveAllRooms st cid) g := by
    unfold disconnectCountdownCheck
    rw [if_pos hcond]
  show alookup
      (handleDisconnect (leaveAllRooms st cid) cid).1.countdownTimers g = none
  rw [hD]
  show alookup
      (disconnectCountdownCheck (leaveAllRooms st cid) g).countdownTimers g =
    none
  rw [hcheck]
  exact clearCountdown_timer_none _ _

/-- Witness for C5 at `stBound`: evicting `c1` (the only member of
`game-g1`) removes the countdown entry for `g1`, even though the store
call threw. -/
theorem stale_eviction_stops_countdown_witness :
    alookup (cleanupStaleClient stBound "c1" (.error ())
      (.ok [])).1.countdownTimers "g1" = none :=
  stale_eviction_stops_countdown stBound "c1" "g1" "p1"
    { gameId := some "g1", playerId := some "p1", lastPing := some 0 }
    (.error ()) (.ok []) (by decide) rfl rfl (by decide)

/-- Claim C6: heartbeat eviction is fail-open: for every registered stale
connection, whatever the outcomes of the deactivation call and the roster
lookup (including throws), the transport connection is forcibly closed
and the connection's registry entry is removed — no zombie entry
survives a persistence failure. -/
theorem stale_cleanup_fail_open (st : GatewayState) (cid : String)
    (cd : ClientData) (removeRes : Except Unit Bool)
    (playersRes : Except Unit (List PlayerRow))
    (hc : alookup st.connectedClients cid = some cd) :
    alookup (cleanupStaleClient st cid removeRes
        playersRes).1.connectedClients cid = none ∧
    OutEffect.closeSocket cid ∈
      (cleanupStaleClient st cid removeRes playersRes).2 := by
  constructor
  · have hstep :
        (cleanupStaleClient st cid removeRes playersRes).1.connectedClients =
          aerase (handleDisconnectFull st cid).1.connectedClients cid := by
      simp [cleanupStaleClient, hc]
    rw [hstep]
    exact alookup_aerase_self _ _
  · simp [cleanupStaleClient, hc]

/-- Witness for C6 at `stBound`: both store calls throw during the
eviction of `c1`, yet `c1` is disconnected and deregistered. -/
theorem stale_cleanup_fail_open_witness :
    alookup (cleanupStaleClient stBound "c1" (.error ())
        (.error ())).1.connectedClients "c1" = none ∧
    OutEffect.closeSocket "c1" ∈
      (cleanupStaleClient stBound "c1" (.error ()) (.error ())).2 :=
  stale_cleanup_fail_open stBound "c1"
    { gameId := some "g1", playerId := some "p1", lastPing := some 0 }
    (.error ()) (.error ()) (by decide)

theorem handleLeaveGame_ok_state (st : GatewayState) (cid : String)
    (d : LeaveGameData) :
    (handleLeaveGame st cid d (.ok true)).2 =
      [.roomEmit (getRoomName d.gameId) (.PLAYER_LEFT d.playerId d.gameId),
       .reply cid (.LEAVE_GAME_SUCCESS d.gameId)] ∧
    cid ∉ roomMembers (handleLeaveGame st cid d (.ok true)).1
      (getRoomName d.gameId) ∧
    (∀ cd, alookup (handleLeaveGame st cid d (.ok true)).1.connectedClients
        cid = some cd → cd.gameId = none ∧ cd.playerId = none) ∧
    (handleLeaveGame st cid d (.ok true)).1.countdownTimers =
      st.countdownTimers := by
  refine ⟨rfl, ?_, ?_, ?_⟩
  · show cid ∉ roomMembers
      (clearBinding (roomLeave st cid (getRoomName d.gameId)) cid)
      (getRoomName d.gameId)
    unfold roomMembers
    rw [clearBinding_rooms]
    show cid ∉ roomMembers (roomLeave st cid (getRoomName d.gameId))
      (getRoomName d.gameId)
    rw [roomMembers_roomLeave_self]
    exact not_mem_filter_ne _ _
  · intro cd hcd
    exact clearBinding_lookup _ cid cd hcd
  · show (clearBinding (roomLeave st cid (getRoomName d.gameId))
        cid).countdownTimers = st.countdownTimers
    rw [clearBinding_timers, roomLeave_timers]

theorem handleLeaveLobby_ok_state (st : GatewayState) (cid : String)
    (d : LeaveGameData) (ps : List PlayerRow) :
    (handleLeaveLobby st cid d (.ok true) (.ok ps)).2 =
      [.roomEmit (getRoomName d.gameId)
          (.PLAYER_LEFT_LOBBY d.playerId d.gameId ps),
       .reply cid (.LOBBY_LEFT d.gameId)] ∧
    cid ∉ roomMembers (handleLeaveLobby st cid d (.ok true) (.ok ps)).1
      (getRoomName d.gameId) ∧
    (∀ cd, alookup (handleLeaveLobby st cid d (.ok true)
        (.ok ps)).1.connectedClients cid = some cd →
      cd.gameId = none ∧ cd.playerId = none) ∧
    (handleLeaveLobby st cid d (.ok true) (.ok ps)).1.countdownTimers =
      st.countdownTimers := by
  refine ⟨rfl, ?_, ?_, ?_⟩
  · show cid ∉ roomMembers
      (clearBinding (roomLeave st cid (getRoomName d.gameId)) cid)
      (getRoomName d.gameId)
    unfold roomMembers
    rw [clearBinding_rooms]
    show cid ∉ roomMembers (roomLeave st cid (getRoomName d.gameId))
      (getRoomName d.gameId)
    rw [roomMembers_roomLeave_self]
    exact not_mem_filter_ne _ _
  · intro cd hcd
    exact clearBinding_lookup _ cid cd hcd
  · show (clearBinding (roomLeave st cid (getRoomName d.gameId))
        cid).countdownTimers = st.countdownTimers
    rw [clearBinding_timers, roomLeave_timers]

/-- Counterexample to claim C7 as stated: at a concrete successful
`LEAVE_GAME`, the complete effect trace is a `PLAYER_LEFT` broadcast
carrying only `(playerId, gameId)` plus the success reply — the broadcast
does not carry a refreshed roster, so "broadcasts a player-left event
carrying the refreshed roster" fails for leave-game. -/
theorem leave_game_roster_counterexample :
    (handleLeaveGame stBound "c1" ⟨"g1", "p1"⟩ (.ok true)).2 =
      [.roomEmit (getRoomName "g1") (.PLAYER_LEFT "p1" "g1"),
       .reply "c1" (.LEAVE_GAME_SUCCESS "g1")] ∧
    carriesRoster (.PLAYER_LEFT "p1" "g1") = false := by
  exact ⟨rfl, rfl⟩

/-- Claim C7 (amended): on a successful leave, both handlers clear the
connection's binding, remove it from the game's room, broadcast a
player-left event and reply success — but only `LEAVE_LOBBY`'s broadcast
(`PLAYER_LEFT_LOBBY`) carries the refreshed roster; `LEAVE_GAME`'s
`PLAYER_LEFT` carries only `(playerId, gameId)`. When the store call
fails or returns `false`, the handler replies with the corresponding
operation-failed error and changes nothing. -/
theorem leave_success_behaviour :
    (∀ (st : GatewayState) (cid : String) (d : LeaveGameData),
      (handleLeaveGame st cid d (.ok true)).2 =
        [.roomEmit (getRoomName d.gameId)
            (.PLAYER_LEFT d.playerId d.gameId),
         .reply cid (.LEAVE_GAME_SUCCESS d.gameId)] ∧
      cid ∉ roomMembers (handleLeaveGame st cid d (.ok true)).1
        (getRoomName d.gameId) ∧
      (∀ cd, alookup (handleLeaveGame st cid d (.ok true)).1.connectedClients
          cid = some cd → cd.gameId = none ∧ cd.playerId = none) ∧
      (handleLeaveGame st cid d (.ok true)).1.countdownTimers =
        st.countdownTimers) ∧
    (∀ (st : GatewayState) (cid : String) (d : LeaveGameData)
        (ps : List PlayerRow),
      (handleLeaveLobby st cid d (.ok true) (.ok ps)).2 =
        [.roomEmit (getRoomName d.gameId)
            (.PLAYER_LEFT_LOBBY d.playerId d.gameId ps),
         .reply cid (.LOBBY_LEFT d.gameId)] ∧
      cid ∉ roomMembers (handleLeaveLobby st cid d (.ok true) (.ok ps)).1
        (getRoomName d.gameId) ∧
      (∀ cd, alookup (handleLeaveLobby st cid d (.ok true)
          (.ok ps)).1.connectedClients cid = some cd →
        cd.gameId = none ∧ cd.playerId = none)) ∧
    (∀ (st : GatewayState) (cid : String) (d : LeaveGameData)
        (removeRes : Except Unit Bool),
      (removeRes = .error () ∨ removeRes = .ok false) →
        handleLeaveGame st cid d removeRes =
          (st, [.reply cid (.ERROR "Failed to leave game")])) ∧
    (∀ (st : GatewayState) (cid : String) (d : LeaveGameData)
        (removeRes : Except Unit Bool)
        (playersRes : Except Unit (List PlayerRow)),
      (removeRes = .error () ∨ removeRes = .ok false) →
        handleLeaveLobby st cid d removeRes playersRes =
          (st, [.reply cid (.LOBBY_ERROR "Failed to leave lobby")])) := by
  refine ⟨?_, ?_, ?_, ?_⟩
  · intro st cid d
    exact ⟨(handleLeaveGame_ok_state st cid d).1,
      (handleLeaveGame_ok_state st cid d).2.1,
      (handleLeaveGame_ok_state st cid d).2.2.1,
      (handleLeaveGame_ok_state st cid d).2.2.2⟩
  · intro st cid d ps
    exact ⟨(handleLeaveLobby_ok_state st cid d ps).1,
      (handleLeaveLobby_ok_state st cid d ps).2.1,
      (handleLeaveLobby_ok_state st cid d ps).2.2.1⟩
  · intro st cid d removeRes h
    rcases h with h | h <;> subst h <;> rfl
  · intro st cid d removeRes playersRes h
    rcases h with h | h <;> subst h <;> rfl

/-- Witness for C7 (amended) at `stBound`: the leaving connection `c1` is
out of the room and unbound after a successful `LEAVE_GAME`, and a
failing store call leaves the state untouched with an error reply. -/
theorem leave_success_behaviour_witness :
    "c1" ∉ roomMembers (handleLeaveGame stBound "c1" ⟨"g1", "p1"⟩
      (.ok true)).1 (getRoomName "g1") ∧
    ({ gameId := none, playerId := none, lastPing := some 0 } :
        ClientData).gameId = none ∧
    ({ gameId := none, playerId := none, lastPing := some 0 } :
        ClientData).playerId = none ∧
    handleLeaveGame stBound "c1" ⟨"g1", "p1"⟩ (.ok false) =
      (stBound, [.reply "c1" (.ERROR "Failed to leave game")]) :=
  ⟨(leave_success_behaviour.1 stBound "c1" ⟨"g1", "p1"⟩).2.1,
   ((leave_success_behaviour.1 stBound "c1" ⟨"g1", "p1"⟩).2.2.1
      { gameId := none, playerId := none, lastPing := some 0 }
      (by decide)).1,
   ((leave_success_behaviour.1 stBound "c1" ⟨"g1", "p1"⟩).2.2.1
      { gameId := none, playerId := none, lastPing := some 0 }
      (by decide)).2,
   leave_success_behaviour.2.2.1 stBound "c1" ⟨"g1", "p1"⟩ (.ok false)
     (Or.inr rfl)⟩

/-- Claim C10: `removePlayerFromGame` returns `true` for every
`(gameId, playerId)` pair when the database call does not throw — the
UPDATE matches zero rows without complaint, leaving the database
unchanged when no row matches — so a leave request for a nonexistent or
already-inactive player is reported as success: the handler still clears
the binding, leaves the room, broadcasts `PLAYER_LEFT` and replies
success. -/
theorem remove_player_total_success :
    (∀ (db : Db) (gid pid : String) (now : Nat),
      (removePlayerFromGame db gid pid now false).1 = true) ∧
    (∀ (db : Db) (gid pid : String) (now : Nat),
      (∀ r ∈ db.players, (r.id == pid && r.gameId == gid) = false) →
        (removePlayerFromGame db gid pid now false).2 = db) ∧
    (∀ (st : GatewayState) (cid : String) (db : Db) (gid pid : String)
        (now : Nat),
      (handleLeaveGame st cid ⟨gid, pid⟩
          (.ok (removePlayerFromGame db gid pid now false).1)).2 =
        [.roomEmit (getRoomName gid) (.PLAYER_LEFT pid gid),
         .reply cid (.LEAVE_GAME_SUCCESS gid)] ∧
      cid ∉ roomMembers (handleLeaveGame st cid ⟨gid, pid⟩
          (.ok (removePlayerFromGame db gid pid now false).1)).1
        (getRoomName gid) ∧
      (∀ cd, alookup (handleLeaveGame st cid ⟨gid, pid⟩
            (.ok (removePlayerFromGame db gid pid now
              false).1)).1.connectedClients cid = some cd →
        cd.gameId = none ∧ cd.playerId = none)) := by
  refine ⟨fun db gid pid now => rfl, ?_, ?_⟩
  · intro db gid pid now h
    show ({ db with players := db.players.map _ } : Db) = db
    have : db.players.map (fun p =>
        if p.id == pid && p.gameId == gid then
          { p with isActive := false, leftAt := some now }
        else p) = db.players := by
      rw [List.map_congr_left (fun r hr => by rw [h r hr])]
      exact List.map_id _
    rw [this]
  · intro st cid db gid pid now
    exact ⟨(handleLeaveGame_ok_state st cid ⟨gid, pid⟩).1,
      (handleLeaveGame_ok_state st cid ⟨gid, pid⟩).2.1,
      (handleLeaveGame_ok_state st cid ⟨gid, pid⟩).2.2.1⟩

/-- Witness for C10: deactivating the nonexistent player `pX` in
`dbNoPlayers` (no player rows at all) returns `true` and leaves the
database unchanged, and the composed leave still broadcasts
`PLAYER_LEFT` for `pX`. -/
theorem remove_player_total_success_witness :
    (removePlayerFromGame dbNoPlayers "g1" "pX" 7 false).1 = true ∧
    (removePlayerFromGame dbNoPlayers "g1" "pX" 7 false).2 = dbNoPlayers ∧
    (handleLeaveGame stBound "c1" ⟨"g1", "pX"⟩
        (.ok (removePlayerFromGame dbNoPlayers "g1" "pX" 7 false).1)).2 =
      [.roomEmit (getRoomName "g1") (.PLAYER_LEFT "pX" "g1"),
       .reply "c1" (.LEAVE_GAME_SUCCESS "g1")] :=
  ⟨remove_player_total_success.1 dbNoPlayers "g1" "pX" 7,
   remove_player_total_success.2.1 dbNoPlayers "g1" "pX" 7
     (by intro r hr; simp [dbNoPlayers] at hr),
   (remove_player_total_success.2.2 stBound "c1" dbNoPlayers "g1" "pX" 7).1⟩

/-- Counterexample to claim C3 as stated: in `dbInProgress` the game
holds an active player row for `(g1, u1)`, yet a second add-player call
for the same user is rejected (the game is no longer `waiting`), so the
claim's unguarded "returns success with the same existing playerId" is
false. -/
theorem add_player_in_progress_counterexample :
    (dbInProgress.players.find? (fun p =>
      p.gameId == "g1" && p.userId == "u1" && p.isActive)).isSome = true ∧
    (addPlayerToGame dbInProgress "g1" "Alice" "u1" "p2" 5).1.success =
      false := by
  exact ⟨rfl, rfl⟩

/-- Claim C3 (amended): joining is idempotent per `(gameId, userId)`
provided the game is still in status `waiting` (the only status in which
the add-player path is reachable): when an active row for `(gameId,
userId)` exists, add-player returns success with exactly that row — same
`playerId`, all fields unchanged — and inserts nothing (the database is
unchanged); and joining the transport room twice adds the connection
once, so room membership is not duplicated. -/
theorem add_player_idempotent_waiting :
    (∀ (db : Db) (gid name uid nid : String) (now : Nat)
        (game : GameRow) (existing : PlayerRow),
      db.games.find? (fun g => g.id == gid) = some game →
      game.status = .waiting →
      db.players.find? (fun p =>
        p.gameId == gid && p.userId == uid && p.isActive) = some existing →
        addPlayerToGame db gid name uid nid now = (.ok existing, db)) ∧
    (∀ (st : GatewayState) (cid r : String),
      roomJoin (roomJoin st cid r) cid r = roomJoin st cid r) ∧
    (∀ (st : GatewayState) (cid r : String),
      (roomMembers st r).count cid = 0 →
        (roomMembers (roomJoin (roomJoin st cid r) cid r) r).count cid = 1) := by
  have hjoin : ∀ (st : GatewayState) (cid r : String),
      roomJoin (roomJoin st cid r) cid r = roomJoin st cid r := by
    intro st cid r
    cases h0 : alookup st.rooms r with
    | none => simp [roomJoin, h0, alookup_aset_self]
    | some ms =>
      by_cases hmem : cid ∈ ms
      · simp [roomJoin, h0, hmem]
      · simp [roomJoin, h0, hmem, alookup_aset_self]
  refine ⟨?_, hjoin, ?_⟩
  · intro db gid name uid nid now game existing hfind hstatus hplayer
    have hne : ¬(game.status ≠ GameStatus.waiting) := by
      rw [hstatus]
      exact fun hcon => hcon rfl
    simp [addPlayerToGame, hfind, hne, hplayer]
  · intro st cid r hcount
    rw [hjoin]
    cases h0 : alookup st.rooms r with
    | none =>
      have h1 : (roomJoin st cid r).rooms = aset st.rooms r [cid] := by
        simp [roomJoin, h0]
      unfold roomMembers
      rw [h1, alookup_aset_self]
      simp
    | some ms =>
      by_cases hmem : cid ∈ ms
      · exfalso
        have hmm : roomMembers st r = ms := by
          unfold roomMembers
          rw [h0]
          rfl
        rw [hmm] at hcount
        have hpos : 0 < ms.count cid := List.count_pos_iff.mpr hmem
        omega
      · have h1 : (roomJoin st cid r).rooms = aset st.rooms r (ms ++ [cid]) := by
          simp [roomJoin, h0, hmem]
        unfold roomMembers
        rw [h1, alookup_aset_self]
        have hms : ms.count cid = 0 := by
          have : roomMembers st r = ms := by
            unfold roomMembers
            rw [h0]
            rfl
          rw [this] at hcount
          exact hcount
        simp [List.count_append, hms]

/-- Witness for C3 (amended): rejoining `dbWaiting` as user `u1` returns
the existing player `p1` with the database unchanged, and a double room
join of a new connection `c2` yields a single membership. -/
theorem add_player_idempotent_waiting_witness :
    addPlayerToGame dbWaiting "g1" "Alice" "u1" "p2" 5 =
      (.ok { id := "p1", gameId := "g1", name := "Alice", userId := "u1",
             isHost := false, joinedAt := 0, leftAt := none,
             isActive := true }, dbWaiting) ∧
    (roomMembers (roomJoin (roomJoin stBound "c2" "game-g1") "c2"
      "game-g1") "game-g1").count "c2" = 1 :=
  ⟨add_player_idempotent_waiting.1 dbWaiting "g1" "Alice" "u1" "p2" 5
      { id := "g1", code := "ABC123", title := none, status := .waiting,
        hostId := "h1" }
      { id := "p1", gameId := "g1", name := "Alice", userId := "u1",
        isHost := false, joinedAt := 0, leftAt := none, isActive := true }
      (by decide) rfl (by decide),
   add_player_idempotent_waiting.2.2 stBound "c2" "game-g1" (by decide)⟩
